import Mathlib

/-!
Verification of the YouTube-automation pipeline orchestrator and its pure
helper functions, shallowly embedded from the Python sources
(src/pipeline.py, src/content_generator.py, src/seo_optimizer.py).

String-valued fields read with Python `dict.get(key, "")` are modelled as
total `String` fields where the absent key is the empty string; optional
dict keys tested with `"k" in d` are modelled as `Option` fields.
-/

namespace YTA

/-- Python `sep.join(parts)`: empty string on the empty list, otherwise the
elements interleaved with the separator. -/
def pyJoin (sep : String) : List String → String
  | [] => ""
  | [a] => a
  | a :: b :: rest => a ++ sep ++ pyJoin sep (b :: rest)

/-- The blank-line separator used by `ContentGenerator.format_script_for_tts`. -/
def nnSep : String := "\n\n"

/-- Single-space separator. -/
def spSep : String := " "

/-- One entry of the script's `main_content` list; the orchestrator reads only
its `content` field (via `section.get("content", "")`). -/
structure ScriptSection where
  content : String
  deriving DecidableEq

/-- The script payload produced by `ContentGenerator.generate_script`, restricted
to the fields read by `format_script_for_tts`. -/
structure ScriptData where
  hook : String
  introduction : String
  main_content : List ScriptSection
  conclusion : String
  deriving DecidableEq

/-- Embeds `ContentGenerator.format_script_for_tts`: builds the parts list
`[hook, introduction] + section contents + [conclusion]` and joins it with a
blank-line separator. -/
def format_script_for_tts (s : ScriptData) : String :=
  let parts := [s.hook, s.introduction] ++ s.main_content.map (fun sec => sec.content) ++ [s.conclusion]
  pyJoin nnSep parts

/-- The flattening as the spec describes it: the same parts in the same order,
but with empty fields skipped before joining. -/
def flattenForNarration_spec (s : ScriptData) : String :=
  let parts := [s.hook, s.introduction] ++ s.main_content.map (fun sec => sec.content) ++ [s.conclusion]
  pyJoin nnSep (parts.filter (fun t => !t.data.isEmpty))

/-- Maximal runs of characters not satisfying `p`, accumulating the current
run in reverse in `acc`. -/
def tokenRuns (p : Char → Bool) (acc : List Char) : List Char → List (List Char)
  | [] => if acc.isEmpty then [] else [acc.reverse]
  | c :: cs =>
    if p c then
      if acc.isEmpty then tokenRuns p [] cs else acc.reverse :: tokenRuns p [] cs
    else
      tokenRuns p (c :: acc) cs

/-- Python `str.split()` with no argument: the maximal whitespace-free runs,
leading/trailing/repeated whitespace contributing nothing. -/
def pySplitWs (t : String) : List String :=
  (tokenRuns (fun c => c.isWhitespace) [] t.data).map String.mk

/-- Embeds the subtitle derivation of `VideoPipeline._create_thumbnail`:
`' '.join(title_words[-3:]) if len(title_words) > 3 else None`. -/
def derive_subtitle (title : String) : Option String :=
  let title_words := pySplitWs title
  if title_words.length > 3 then
    some (pyJoin spSep (title_words.drop (title_words.length - 3)))
  else
    none

/-- The subtitle rule as the spec words it: the last 3 tokens (take 3 from the
reversed token list) joined by single spaces when there are more than 3 tokens. -/
def subtitle_spec (title : String) : Option String :=
  let toks := pySplitWs title
  if 3 < toks.length then
    some (pyJoin spSep ((toks.reverse.take 3).reverse))
  else
    none

/-- The metadata record handled by `SEOOptimizer._validate_metadata`, restricted
to the fields it touches. `title` and `description` are read with a `""`
default; `tags` and `hashtags` are guarded by `"k" in metadata`. -/
structure Metadata where
  title : String
  description : String
  tags : Option (List String)
  hashtags : Option (List String)
  deriving DecidableEq

/-- Ellipsis appended by the truncation branches. -/
def dots : String := "..."

/-- Hash mark prepended to hashtags. -/
def hashMark : String := "#"

/-- Python string slice `s[:n]`: the first `n` characters (code points). -/
def pyTake (s : String) (n : Nat) : String :=
  String.mk (s.data.take n)

/-- Python `s.startswith(pre)` on the character level. -/
def pyStartsWith (s pre : String) : Bool :=
  pre.data.isPrefixOf s.data

/-- Embeds the hashtag normalisation loop body of `SEOOptimizer._validate_metadata`. -/
def normalizeHashtag (t : String) : String :=
  if pyStartsWith t hashMark then t else hashMark ++ t

/-- Embeds `SEOOptimizer._validate_metadata`: truncate overlong title and
description, cap tags at 30, cap hashtags at 15 and force the `#` mark. -/
def validate_metadata (m : Metadata) : Metadata :=
  let m1 := if m.title.length > 60 then { m with title := pyTake m.title 57 ++ dots } else m
  let m2 := if m1.description.length > 5000 then { m1 with description := pyTake m1.description 4997 ++ dots } else m1
  let m3 := match m2.tags with
    | some ts => { m2 with tags := some (ts.take 30) }
    | none => m2
  match m3.hashtags with
    | some hs => { m3 with hashtags := some ((hs.take 15).map normalizeHashtag) }
    | none => m3

/-! ## Orchestrator (`VideoPipeline.run`, src/pipeline.py)

Each collaborator call is modelled by its outcome, an `Except String _`
whose `error` constructor carries `str(e)` of the raised exception. The
`results` dict becomes a `Run` record; the presence of the `end_time` and
`duration_seconds` keys becomes two booleans; the `stages` dict becomes an
association list in insertion order. Side-effecting calls whose order
matters (error/success notification, `_save_results`, the final re-raise or
return) are additionally logged as an event trace. -/

/-- One value of the `results['stages']` dict: the `status` field plus the
`error` field when present. Payload fields (`data`, `path`, `duration`,
`video_url`, ...) carry no control flow and are not modelled. -/
structure StageEntry where
  status : String
  error : Option String
  deriving DecidableEq

/-- Status strings used by the pipeline. -/
def sSuccess : String := "success"

/-- Status string for a run or stage that failed. -/
def sError : String := "error"

/-- Status string for the skipped upload stage. -/
def sSkipped : String := "skipped"

/-- Result of `VideoPipeline._get_failed_stage` when no stage has status error. -/
def sUnknown : String := "Unknown"

/-- Stage key `content_generation`. -/
def nContent : String := "content_generation"

/-- Stage key `seo_optimization`. -/
def nSeo : String := "seo_optimization"

/-- Stage key `thumbnail_creation`. -/
def nThumb : String := "thumbnail_creation"

/-- Stage key `audio_production`. -/
def nAudio : String := "audio_production"

/-- Stage key `video_editing`. -/
def nVideo : String := "video_editing"

/-- Stage key `youtube_upload`. -/
def nUpload : String := "youtube_upload"

/-- Stage key `email_notification`. -/
def nNotify : String := "email_notification"

/-- The entry written for a successfully completed stage. -/
def okEntry : StageEntry := { status := sSuccess, error := none }

/-- The entry written for the skipped upload stage. -/
def skippedEntry : StageEntry := { status := sSkipped, error := none }

/-- The first five stage keys in execution order. -/
def stageNames : List String := [nContent, nSeo, nThumb, nAudio, nVideo]

/-- Decidable equality of collaborator outcomes, for concrete evaluation. -/
instance instDecEqExcept {ε α : Type} [DecidableEq ε] [DecidableEq α] :
    DecidableEq (Except ε α) := fun a b =>
  match a, b with
  | Except.ok x, Except.ok y =>
      if h : x = y then isTrue (by rw [h]) else isFalse (by intro hc; cases hc; exact h rfl)
  | Except.error x, Except.error y =>
      if h : x = y then isTrue (by rw [h]) else isFalse (by intro hc; cases hc; exact h rfl)
  | Except.ok _, Except.error _ => isFalse (by intro hc; cases hc)
  | Except.error _, Except.ok _ => isFalse (by intro hc; cases hc)

/-- Outcomes of the collaborator calls made during one `VideoPipeline.run`
invocation. -/
structure Env where
  contentResult : Except String ScriptData
  seoResult : Except String Metadata
  thumbnailResult : Except String String
  audioResult : Except String (String × Nat)
  videoResult : Except String String
  uploadCall : Except String StageEntry
  notifySuccessCall : Except String Bool
  notifyErrorCall : Except String Bool
  deriving DecidableEq

/-- The `results` dict at the end of a run. -/
structure Run where
  status : String
  error : Option String
  stages : List (String × StageEntry)
  endTimeSet : Bool
  durationSet : Bool
  deriving DecidableEq

/-- Ordered side effects of a run. -/
inductive Ev where
  | notifyError (stage : String) (message : String)
  | notifySuccess
  | saveResults
  | reraise (message : String)
  | returned
  deriving DecidableEq

/-- Everything a `VideoPipeline.run` call does: the persisted `results`
record, the exception propagated to the caller (if any), the ordered event
trace, and the swallowed outcomes of the notification deliveries. -/
structure RunOutput where
  results : Run
  raised : Option String
  events : List Ev
  errorNotifyOutcome : Option (Except String Bool)
  successNotifyOutcome : Option (Except String Bool)
  deriving DecidableEq

/-- Embeds `VideoPipeline._get_failed_stage`: the first stage (in insertion
order) whose entry has status error, else `Unknown`. -/
def get_failed_stage (stages : List (String × StageEntry)) : String :=
  match stages.find? (fun p => p.2.status == sError) with
  | some p => p.1
  | none => sUnknown

/-- Embeds `VideoPipeline._upload_to_youtube`: forward the uploader's result
dict, converting a raised exception into `{'status': 'error', 'error': str(e)}`. -/
def upload_to_youtube (env : Env) : StageEntry :=
  match env.uploadCall with
  | Except.ok r => r
  | Except.error e => { status := sError, error := some e }

/-- Embeds the `except Exception as e` handler of `VideoPipeline.run`:
record error status and message, set `end_time` only, optionally attempt the
error notification (its own failure swallowed by the bare `except: pass`),
save the results, then re-raise. -/
def onError (env : Env) (send_email : Bool) (stages : List (String × StageEntry)) (e : String) : RunOutput :=
  let errRun : Run :=
    { status := sError, error := some e, stages := stages, endTimeSet := true, durationSet := false }
  if send_email then
    { results := errRun
      raised := some e
      events := [Ev.notifyError (get_failed_stage stages) e, Ev.saveResults, Ev.reraise e]
      errorNotifyOutcome := some env.notifyErrorCall
      successNotifyOutcome := none }
  else
    { results := errRun
      raised := some e
      events := [Ev.saveResults, Ev.reraise e]
      errorNotifyOutcome := none
      successNotifyOutcome := none }

/-- The terminal `results` record of a successful run: status success,
both `end_time` and `duration_seconds` set. -/
def successRun (stages : List (String × StageEntry)) : Run :=
  { status := sSuccess, error := none, stages := stages, endTimeSet := true, durationSet := true }

/-- Embeds `VideoPipeline.run`: stages 1-5 in sequence, each appending a
success entry or jumping to the handler; then the upload stage (skipped when
`upload` is false, never raising otherwise); then the email notification
stage when enabled and the upload succeeded (its delivery failure swallowed
by `_send_notification`); finally save and return. -/
def run (env : Env) (upload send_email : Bool) : RunOutput :=
  match env.contentResult with
  | Except.error e => onError env send_email [] e
  | Except.ok _ =>
  match env.seoResult with
  | Except.error e => onError env send_email [(nContent, okEntry)] e
  | Except.ok _ =>
  match env.thumbnailResult with
  | Except.error e => onError env send_email [(nContent, okEntry), (nSeo, okEntry)] e
  | Except.ok _ =>
  match env.audioResult with
  | Except.error e => onError env send_email [(nContent, okEntry), (nSeo, okEntry), (nThumb, okEntry)] e
  | Except.ok _ =>
  match env.videoResult with
  | Except.error e =>
      onError env send_email [(nContent, okEntry), (nSeo, okEntry), (nThumb, okEntry), (nAudio, okEntry)] e
  | Except.ok _ =>
  let s5 := [(nContent, okEntry), (nSeo, okEntry), (nThumb, okEntry), (nAudio, okEntry), (nVideo, okEntry)]
  if upload then
    let ur := upload_to_youtube env
    let s6 := s5 ++ [(nUpload, ur)]
    if send_email && (ur.status == sSuccess) then
      { results := successRun (s6 ++ [(nNotify, okEntry)])
        raised := none
        events := [Ev.notifySuccess, Ev.saveResults, Ev.returned]
        errorNotifyOutcome := none
        successNotifyOutcome := some env.notifySuccessCall }
    else
      { results := successRun s6
        raised := none
        events := [Ev.saveResults, Ev.returned]
        errorNotifyOutcome := none
        successNotifyOutcome := none }
  else
    { results := successRun (s5 ++ [(nUpload, skippedEntry)])
      raised := none
      events := [Ev.saveResults, Ev.returned]
      errorNotifyOutcome := none
      successNotifyOutcome := none }

/-- Erased outcome of stage `k` (0-indexed) among the five fail-fast stages. -/
def stageOutcome (env : Env) (k : Nat) : Except String Unit :=
  match k with
  | 0 => env.contentResult.map (fun _ => ())
  | 1 => env.seoResult.map (fun _ => ())
  | 2 => env.thumbnailResult.map (fun _ => ())
  | 3 => env.audioResult.map (fun _ => ())
  | 4 => env.videoResult.map (fun _ => ())
  | _ => Except.ok ()

/-! ## Concrete data used by witnesses and counterexamples -/

/-- A script payload with an empty hook and nonempty remaining fields. -/
def exScript : ScriptData :=
  { hook := "", introduction := "intro", main_content := [], conclusion := "bye" }

/-- A five-token title. -/
def tABCDE : String := "A B C D E"

/-- A three-token title. -/
def tABC : String := "A B C"

/-- The last three tokens of `tABCDE`. -/
def tCDE : String := "C D E"

/-- A trivial script payload for full-pipeline runs. -/
def sd0 : ScriptData := { hook := "h", introduction := "i", main_content := [], conclusion := "c" }

/-- A trivial metadata payload for full-pipeline runs. -/
def md0 : Metadata := { title := "t", description := "d", tags := none, hashtags := none }

/-- A thumbnail artifact path. -/
def thumbPath : String := "thumb.png"

/-- An audio artifact path. -/
def audioPath : String := "audio.mp3"

/-- A video artifact path. -/
def videoPath : String := "video.mp4"

/-- An environment in which every collaborator call succeeds. -/
def envOk : Env :=
  { contentResult := Except.ok sd0
    seoResult := Except.ok md0
    thumbnailResult := Except.ok thumbPath
    audioResult := Except.ok (audioPath, 10)
    videoResult := Except.ok videoPath
    uploadCall := Except.ok { status := sSuccess, error := none }
    notifySuccessCall := Except.ok true
    notifyErrorCall := Except.ok true }

/-- The publish failure message used by the failed-upload environment. -/
def quotaMsg : String := "quota exceeded"

/-- Like `envOk` but the uploader returns a non-success result dict. -/
def envC1 : Env := { envOk with uploadCall := Except.ok { status := sError, error := some quotaMsg } }

/-- The audio failure message of the end-to-end error scenario. -/
def dfMsg : String := "disk full"

/-- Like `envOk` but the audio renderer raises `RenderError("disk full")`. -/
def envC3 : Env := { envOk with audioResult := Except.error dfMsg }

/-- The plain hashtag of the spec's example. -/
def tagTech : String := "tech"

/-- The normalised hashtag of the spec's example. -/
def tagHashTech : String := "#tech"

/-- Lower-case letter used to build long strings. -/
def aChar : Char := 'a'

/-- A metadata record with a 70-character title. -/
def m70 : Metadata :=
  { title := String.mk (List.replicate 70 aChar), description := "", tags := none, hashtags := none }

/-- A metadata record with a 5001-character description. -/
def m5001 : Metadata :=
  { title := "", description := String.mk (List.replicate 5001 aChar), tags := none, hashtags := none }

/-- A 31-entry tag list. -/
def tags31 : List String := List.replicate 31 tagTech

/-- A metadata record with 31 tags. -/
def m31 : Metadata := { title := "", description := "", tags := some tags31, hashtags := none }

/-- A metadata record whose only hashtag lacks the hash mark. -/
def mHash : Metadata := { title := "", description := "", tags := none, hashtags := some [tagTech] }

/-- The delivery failure message of the failing success notification. -/
def smtpMsg : String := "smtp connection refused"

/-- Like `envOk` but the success-notification delivery raises. -/
def envC9 : Env := { envOk with notifySuccessCall := Except.error smtpMsg }

/-! ## Helper lemmas -/

/-- Unfolding `pyJoin` past a head element when the tail is nonempty. -/
theorem pyJoin_cons_of_ne_nil (sep a : String) (l : List String) (h : l ≠ []) :
    pyJoin sep (a :: l) = a ++ sep ++ pyJoin sep l := by
  cases l with
  | nil => exact absurd rfl h
  | cons b rest => rfl

/-- Joining the section contents followed by the conclusion equals the right
fold interleaving the separator. -/
theorem pyJoin_sections (secs : List ScriptSection) (concl : String) :
    pyJoin nnSep (secs.map (fun sec => sec.content) ++ [concl]) =
      secs.foldr (fun sec acc => sec.content ++ nnSep ++ acc) concl := by
  induction secs with
  | nil => rfl
  | cons c cs ih =>
    rw [List.map_cons, List.cons_append,
      pyJoin_cons_of_ne_nil nnSep c.content (cs.map (fun sec => sec.content) ++ [concl])
        (by simp), ih, List.foldr_cons]

/-! ## C4 -/

/-- C4 counterexample: the claim says empty or absent fields are skipped
without introducing separators at the boundaries, but on a payload with an
empty hook the code's flattening starts with a blank-line separator and
differs from the skip-empties flattening the claim describes. -/
theorem c4_empty_fields_not_skipped :
    format_script_for_tts exScript = "\n\nintro\n\nbye" ∧
    flattenForNarration_spec exScript = "intro\n\nbye" ∧
    format_script_for_tts exScript ≠ flattenForNarration_spec exScript := by
  refine ⟨by decide, by decide, by decide⟩

/-- C4 amended: flattening a ScriptPayload is the pure function joining hook,
introduction, each main-content section content (in list order) and conclusion
with blank-line separators, where absent fields contribute empty strings and
empty fields are NOT skipped (each still contributes its surrounding
separator). -/
theorem c4_format_tts_concatenation (s : ScriptData) :
    format_script_for_tts s =
      s.hook ++ nnSep ++ s.introduction ++ nnSep ++
        s.main_content.foldr (fun sec acc => sec.content ++ nnSep ++ acc) s.conclusion := by
  unfold format_script_for_tts
  rw [show [s.hook, s.introduction] ++ s.main_content.map (fun sec => sec.content) ++ [s.conclusion] =
        s.hook :: (s.introduction :: (s.main_content.map (fun sec => sec.content) ++ [s.conclusion])) by simp,
    pyJoin_cons_of_ne_nil nnSep s.hook _ (by simp),
    pyJoin_cons_of_ne_nil nnSep s.introduction _ (by simp),
    pyJoin_sections]
  simp [String.append_assoc]

/-! ## C5 -/

/-- C5: the subtitle passed to the thumbnail renderer is the last 3
whitespace-separated tokens of the title joined by single spaces when the
title has more than 3 tokens, and absent otherwise; in particular
`A B C D E` yields `C D E` and `A B C` yields no subtitle. -/
theorem c5_subtitle_last_three_tokens :
    (∀ title : String, derive_subtitle title = subtitle_spec title) ∧
    derive_subtitle tABCDE = some tCDE ∧ derive_subtitle tABC = none := by
  refine ⟨fun title => ?_, by decide, by decide⟩
  have h : ∀ l : List String, (l.reverse.take 3).reverse = l.drop (l.length - 3) :=
    fun l => (List.rtake_eq_reverse_take_reverse l 3).symm
  simp [derive_subtitle, subtitle_spec, h]

/-! ## C6 -/

/-- C6: metadata validation truncates a title longer than 60 characters to its
first 57 characters plus an ellipsis, truncates a description longer than 5000
characters, caps the tags list at 30 entries, keeps at most 15 hashtags and
gives each hashtag lacking the hash mark a `#` between the mark and the tag;
in particular `tech` becomes `#tech`. -/
theorem c6_validate_metadata_constraints :
    (∀ m : Metadata, 60 < m.title.length →
      (validate_metadata m).title = pyTake m.title 57 ++ dots) ∧
    (∀ m : Metadata, 5000 < m.description.length →
      (validate_metadata m).description = pyTake m.description 4997 ++ dots) ∧
    (∀ (m : Metadata) (ts : List String), m.tags = some ts →
      (validate_metadata m).tags = some (ts.take 30)) ∧
    (∀ (m : Metadata) (hs : List String), m.hashtags = some hs →
      (validate_metadata m).hashtags = some ((hs.take 15).map normalizeHashtag)) ∧
    normalizeHashtag tagTech = tagHashTech := by
  refine ⟨?_, ?_, ?_, ?_, by decide⟩
  · rintro ⟨t, d, tg, hg⟩ h
    by_cases hd : d.length > 5000 <;> cases tg <;> cases hg <;>
      simp [validate_metadata, h, hd]
  · rintro ⟨t, d, tg, hg⟩ h
    by_cases ht : t.length > 60 <;> cases tg <;> cases hg <;>
      simp [validate_metadata, h, ht]
  · rintro ⟨t, d, tg, hg⟩ ts hts
    cases hts
    by_cases ht : t.length > 60 <;> by_cases hd : d.length > 5000 <;> cases hg <;>
      simp [validate_metadata, ht, hd]
  · rintro ⟨t, d, tg, hg⟩ hs hhs
    cases hhs
    by_cases ht : t.length > 60 <;> by_cases hd : d.length > 5000 <;> cases tg <;>
      simp [validate_metadata, ht, hd]

/-- C6 witness: the constraints evaluated on concrete records (70-character
title, 5001-character description, 31 tags, a bare `tech` hashtag). -/
theorem c6_validate_metadata_constraints_witness :
    (validate_metadata m70).title = pyTake m70.title 57 ++ dots ∧
    (validate_metadata m5001).description = pyTake m5001.description 4997 ++ dots ∧
    (validate_metadata m31).tags = some (tags31.take 30) ∧
    (validate_metadata mHash).hashtags = some (([tagTech].take 15).map normalizeHashtag) :=
  ⟨c6_validate_metadata_constraints.1 m70 (by decide),
   c6_validate_metadata_constraints.2.1 m5001
     (show (5000 : Nat) < (String.mk (List.replicate 5001 aChar)).length by
       rw [String.length_mk, List.length_replicate]; norm_num),
   c6_validate_metadata_constraints.2.2.1 m31 tags31 rfl,
   c6_validate_metadata_constraints.2.2.2.1 mHash [tagTech] rfl⟩

/-- Erasing the payload preserves exactly the ok outcomes. -/
theorem except_map_ok_iff {α : Type} (x : Except String α) :
    (∃ u, x.map (fun _ => ()) = Except.ok u) ↔ ∃ a, x = Except.ok a := by
  cases x <;> simp [Except.map]

/-- Erasing the payload preserves exactly the error outcomes. -/
theorem except_map_error_iff {α : Type} (x : Except String α) (m : String) :
    x.map (fun _ => ()) = Except.error m ↔ x = Except.error m := by
  cases x <;> simp [Except.map]

/-! ## C1 -/

/-- C1 counterexample: with stages 1-5 succeeding, publishing enabled and the
uploader returning a non-success result, the run record ends with status
`success` and no error field, contradicting the claimed `error` status. -/
theorem c1_publish_failure_counterexample :
    (run envC1 true true).results.status = sSuccess ∧
    (run envC1 true true).results.error = none ∧
    ¬ (run envC1 true true).results.status = sError := by
  refine ⟨by decide, by decide, by decide⟩

/-- C1 amended: when stages 1-5 succeed, publishing is enabled and the publish
stage fails (the recorded upload entry's status is not `success`), the run
still terminates with status `success` and no run-level error field; the
publish failure lives only in the upload stage entry; no notify entry exists,
the success notification is never attempted, and no exception propagates. -/
theorem c1_publish_failure_run_succeeds (env : Env) (notify : Bool)
    (sd : ScriptData) (md : Metadata) (tp vp : String) (au : String × Nat)
    (h1 : env.contentResult = Except.ok sd) (h2 : env.seoResult = Except.ok md)
    (h3 : env.thumbnailResult = Except.ok tp) (h4 : env.audioResult = Except.ok au)
    (h5 : env.videoResult = Except.ok vp)
    (h6 : ((upload_to_youtube env).status == sSuccess) = false) :
    (run env true notify).results.status = sSuccess ∧
    (run env true notify).results.error = none ∧
    (run env true notify).results.stages =
      [(nContent, okEntry), (nSeo, okEntry), (nThumb, okEntry), (nAudio, okEntry),
        (nVideo, okEntry), (nUpload, upload_to_youtube env)] ∧
    ¬ nNotify ∈ ((run env true notify).results.stages.map Prod.fst) ∧
    (run env true notify).raised = none ∧
    (run env true notify).events = [Ev.saveResults, Ev.returned] := by
  have hr : run env true notify =
      { results := successRun
          [(nContent, okEntry), (nSeo, okEntry), (nThumb, okEntry), (nAudio, okEntry),
            (nVideo, okEntry), (nUpload, upload_to_youtube env)]
        raised := none
        events := [Ev.saveResults, Ev.returned]
        errorNotifyOutcome := none
        successNotifyOutcome := none } := by
    simp [run, h1, h2, h3, h4, h5, h6]
  rw [hr]
  refine ⟨rfl, rfl, rfl, ?_, rfl, rfl⟩
  simp [successRun, nNotify, nContent, nSeo, nThumb, nAudio, nVideo, nUpload]

/-- C1 witness: the amended statement evaluated on the concrete failed-upload
environment. -/
theorem c1_publish_failure_run_succeeds_witness :
    (run envC1 true true).results.status = sSuccess ∧
    (run envC1 true true).results.error = none ∧
    (run envC1 true true).results.stages =
      [(nContent, okEntry), (nSeo, okEntry), (nThumb, okEntry), (nAudio, okEntry),
        (nVideo, okEntry), (nUpload, upload_to_youtube envC1)] ∧
    ¬ nNotify ∈ ((run envC1 true true).results.stages.map Prod.fst) ∧
    (run envC1 true true).raised = none ∧
    (run envC1 true true).events = [Ev.saveResults, Ev.returned] :=
  c1_publish_failure_run_succeeds envC1 true sd0 md0 thumbPath videoPath (audioPath, 10)
    rfl rfl rfl rfl rfl (by decide)

/-! ## C2 -/

/-- C2: when stage `k` (0-indexed, among the five fail-fast stages) raises
after all earlier stages succeeded, the stages mapping holds exactly the
earlier stages' success entries (so no entry at or after stage `k` exists),
the run record has status `error` with the stage's failure message, the same
message is re-raised to the caller, and the re-raise happens after the record
is saved and after the best-effort error notification is attempted (attempted
exactly when notifications are enabled). -/
theorem c2_failfast_stage_aborts (env : Env) (upload send_email : Bool) (k : Nat) (msg : String)
    (hk : k < 5)
    (hpre : ∀ j, j < k → ∃ u, stageOutcome env j = Except.ok u)
    (hfail : stageOutcome env k = Except.error msg) :
    (run env upload send_email).results.stages =
      (stageNames.take k).map (fun n => (n, okEntry)) ∧
    (run env upload send_email).results.status = sError ∧
    (run env upload send_email).results.error = some msg ∧
    (run env upload send_email).raised = some msg ∧
    (run env upload send_email).events =
      (if send_email then [Ev.notifyError sUnknown msg] else []) ++
        [Ev.saveResults, Ev.reraise msg] := by
  interval_cases k
  · rw [show stageOutcome env 0 = env.contentResult.map (fun _ => ()) from rfl] at hfail
    replace hfail := (except_map_error_iff _ _).mp hfail
    cases send_email <;>
      simp [run, onError, hfail, stageNames, get_failed_stage, sUnknown]
  · have h0 := (except_map_ok_iff _).mp (hpre 0 (by norm_num))
    obtain ⟨a0, e0⟩ := h0
    rw [show stageOutcome env 1 = env.seoResult.map (fun _ => ()) from rfl] at hfail
    replace hfail := (except_map_error_iff _ _).mp hfail
    cases send_email <;>
      simp [run, onError, e0, hfail, stageNames, get_failed_stage, List.find?, okEntry,
        sSuccess, sError, sUnknown]
  · obtain ⟨a0, e0⟩ := (except_map_ok_iff _).mp (hpre 0 (by norm_num))
    obtain ⟨a1, e1⟩ := (except_map_ok_iff _).mp (hpre 1 (by norm_num))
    rw [show stageOutcome env 2 = env.thumbnailResult.map (fun _ => ()) from rfl] at hfail
    replace hfail := (except_map_error_iff _ _).mp hfail
    cases send_email <;>
      simp [run, onError, e0, e1, hfail, stageNames, get_failed_stage, List.find?, okEntry,
        sSuccess, sError, sUnknown]
  · obtain ⟨a0, e0⟩ := (except_map_ok_iff _).mp (hpre 0 (by norm_num))
    obtain ⟨a1, e1⟩ := (except_map_ok_iff _).mp (hpre 1 (by norm_num))
    obtain ⟨a2, e2⟩ := (except_map_ok_iff _).mp (hpre 2 (by norm_num))
    rw [show stageOutcome env 3 = env.audioResult.map (fun _ => ()) from rfl] at hfail
    replace hfail := (except_map_error_iff _ _).mp hfail
    cases send_email <;>
      simp [run, onError, e0, e1, e2, hfail, stageNames, get_failed_stage, List.find?, okEntry,
        sSuccess, sError, sUnknown]
  · obtain ⟨a0, e0⟩ := (except_map_ok_iff _).mp (hpre 0 (by norm_num))
    obtain ⟨a1, e1⟩ := (except_map_ok_iff _).mp (hpre 1 (by norm_num))
    obtain ⟨a2, e2⟩ := (except_map_ok_iff _).mp (hpre 2 (by norm_num))
    obtain ⟨a3, e3⟩ := (except_map_ok_iff _).mp (hpre 3 (by norm_num))
    rw [show stageOutcome env 4 = env.videoResult.map (fun _ => ()) from rfl] at hfail
    replace hfail := (except_map_error_iff _ _).mp hfail
    cases send_email <;>
      simp [run, onError, e0, e1, e2, e3, hfail, stageNames, get_failed_stage, List.find?,
        okEntry, sSuccess, sError, sUnknown]

/-- C2 witness: the fail-fast behaviour evaluated on the concrete environment
whose audio stage (stage index 3) raises. -/
theorem c2_failfast_stage_aborts_witness :
    (run envC3 true true).results.stages =
      (stageNames.take 3).map (fun n => (n, okEntry)) ∧
    (run envC3 true true).results.status = sError ∧
    (run envC3 true true).results.error = some dfMsg ∧
    (run envC3 true true).raised = some dfMsg ∧
    (run envC3 true true).events =
      (if true then [Ev.notifyError sUnknown dfMsg] else []) ++
        [Ev.saveResults, Ev.reraise dfMsg] :=
  c2_failfast_stage_aborts envC3 true true 3 dfMsg (by norm_num)
    (fun j hj => by interval_cases j <;> exact ⟨(), rfl⟩) rfl

/-! ## C3 -/

/-- C3 counterexample: when stages 1-3 succeed and the audio stage raises
`disk full`, the run record holds only 3 stage entries, no audio entry at
all, and the stage reported to the error notifier is `Unknown`, contradicting
the claimed 4 entries, error-status audio entry and `audio_production`
attribution. -/
theorem c3_audio_failure_counterexample :
    (run envC3 true true).results.stages.length = 3 ∧
    ¬ nAudio ∈ ((run envC3 true true).results.stages.map Prod.fst) ∧
    (run envC3 true true).events =
      [Ev.notifyError sUnknown dfMsg, Ev.saveResults, Ev.reraise dfMsg] ∧
    ¬ sUnknown = nAudio := by
  refine ⟨by decide, by decide, by decide, by decide⟩

/-- C3 amended: when stages 1-3 succeed and the audio stage raises
`RenderError("disk full")`, the Run has exactly 3 stage entries (script,
metadata, thumbnail) all with status `success`, no audio entry exists (a
raising stage writes no entry), Run.status is `error` with message
`disk full`, the failure-stage attribution reported to the notifier is
`Unknown` (no recorded stage result has status `error`), and the original
exception is re-raised to the caller after the record is saved. -/
theorem c3_audio_failure_run_record (env : Env) (upload : Bool)
    (sd : ScriptData) (md : Metadata) (tp : String)
    (h1 : env.contentResult = Except.ok sd) (h2 : env.seoResult = Except.ok md)
    (h3 : env.thumbnailResult = Except.ok tp)
    (h4 : env.audioResult = Except.error dfMsg) :
    (run env upload true).results.stages =
      [(nContent, okEntry), (nSeo, okEntry), (nThumb, okEntry)] ∧
    ¬ nAudio ∈ ((run env upload true).results.stages.map Prod.fst) ∧
    (run env upload true).results.status = sError ∧
    (run env upload true).results.error = some dfMsg ∧
    (run env upload true).events =
      [Ev.notifyError sUnknown dfMsg, Ev.saveResults, Ev.reraise dfMsg] ∧
    (run env upload true).raised = some dfMsg := by
  have hr : run env upload true =
      { results :=
          { status := sError, error := some dfMsg
            stages := [(nContent, okEntry), (nSeo, okEntry), (nThumb, okEntry)]
            endTimeSet := true, durationSet := false }
        raised := some dfMsg
        events := [Ev.notifyError sUnknown dfMsg, Ev.saveResults, Ev.reraise dfMsg]
        errorNotifyOutcome := some env.notifyErrorCall
        successNotifyOutcome := none } := by
    simp [run, onError, h1, h2, h3, h4, get_failed_stage, List.find?, okEntry,
      sSuccess, sError, sUnknown]
  rw [hr]
  refine ⟨rfl, ?_, rfl, rfl, rfl, rfl⟩
  simp [nAudio, nContent, nSeo, nThumb]

/-- C3 witness: the amended statement evaluated on the concrete disk-full
environment. -/
theorem c3_audio_failure_run_record_witness :
    (run envC3 true true).results.stages =
      [(nContent, okEntry), (nSeo, okEntry), (nThumb, okEntry)] ∧
    ¬ nAudio ∈ ((run envC3 true true).results.stages.map Prod.fst) ∧
    (run envC3 true true).results.status = sError ∧
    (run envC3 true true).results.error = some dfMsg ∧
    (run envC3 true true).events =
      [Ev.notifyError sUnknown dfMsg, Ev.saveResults, Ev.reraise dfMsg] ∧
    (run envC3 true true).raised = some dfMsg :=
  c3_audio_failure_run_record envC3 true sd0 md0 thumbPath rfl rfl rfl rfl

/-! ## C7 -/

/-- C7: when stages 1-5 succeed and publishing is disabled, the upload stage
entry has status `skipped`, no notify entry exists, the success notification
is never invoked, and the run terminates with status `success`. -/
theorem c7_publish_disabled_skips (env : Env) (send_email : Bool)
    (sd : ScriptData) (md : Metadata) (tp vp : String) (au : String × Nat)
    (h1 : env.contentResult = Except.ok sd) (h2 : env.seoResult = Except.ok md)
    (h3 : env.thumbnailResult = Except.ok tp) (h4 : env.audioResult = Except.ok au)
    (h5 : env.videoResult = Except.ok vp) :
    List.lookup nUpload (run env false send_email).results.stages = some skippedEntry ∧
    ¬ nNotify ∈ ((run env false send_email).results.stages.map Prod.fst) ∧
    (run env false send_email).events = [Ev.saveResults, Ev.returned] ∧
    (run env false send_email).successNotifyOutcome = none ∧
    (run env false send_email).results.status = sSuccess := by
  have hr : run env false send_email =
      { results := successRun
          [(nContent, okEntry), (nSeo, okEntry), (nThumb, okEntry), (nAudio, okEntry),
            (nVideo, okEntry), (nUpload, skippedEntry)]
        raised := none
        events := [Ev.saveResults, Ev.returned]
        errorNotifyOutcome := none
        successNotifyOutcome := none } := by
    simp [run, h1, h2, h3, h4, h5]
  rw [hr]
  refine ⟨?_, ?_, rfl, rfl, rfl⟩
  · simp [successRun, List.lookup, nUpload, nContent, nSeo, nThumb, nAudio, nVideo]
  · simp [successRun, nNotify, nContent, nSeo, nThumb, nAudio, nVideo, nUpload]

/-- C7 witness: the skip behaviour evaluated on the all-success environment
with publishing disabled. -/
theorem c7_publish_disabled_skips_witness :
    List.lookup nUpload (run envOk false true).results.stages = some skippedEntry ∧
    ¬ nNotify ∈ ((run envOk false true).results.stages.map Prod.fst) ∧
    (run envOk false true).events = [Ev.saveResults, Ev.returned] ∧
    (run envOk false true).successNotifyOutcome = none ∧
    (run envOk false true).results.status = sSuccess :=
  c7_publish_disabled_skips envOk true sd0 md0 thumbPath videoPath (audioPath, 10)
    rfl rfl rfl rfl rfl

/-! ## C8 -/

/-- C8: with notifications enabled, the outcome of the error-notification
delivery has no effect on the run: swapping any two delivery outcomes leaves
the persisted record, the propagated exception and the event order unchanged,
so a failing delivery is swallowed and never raises past the orchestrator. -/
theorem c8_error_notification_swallowed (env : Env) (upload : Bool)
    (f g : Except String Bool) :
    (run { env with notifyErrorCall := f } upload true).results =
      (run { env with notifyErrorCall := g } upload true).results ∧
    (run { env with notifyErrorCall := f } upload true).raised =
      (run { env with notifyErrorCall := g } upload true).raised ∧
    (run { env with notifyErrorCall := f } upload true).events =
      (run { env with notifyErrorCall := g } upload true).events := by
  obtain ⟨cr, sr, tr, ar, vr, uc, ns, ne⟩ := env
  cases cr <;> cases sr <;> cases tr <;> cases ar <;> cases vr <;> cases uc <;>
    cases upload <;> simp [run, onError, upload_to_youtube]

/-! ## C9 -/

/-- C9: whenever an email-notification stage entry is present in a run's
stages mapping, its status is `success`, regardless of whether the email
delivery succeeded. -/
theorem c9_notify_entry_always_success (env : Env) (upload send_email : Bool)
    (e : StageEntry)
    (h : List.lookup nNotify (run env upload send_email).results.stages = some e) :
    e.status = sSuccess := by
  obtain ⟨cr, sr, tr, ar, vr, uc, ns, ne⟩ := env
  cases cr <;> cases sr <;> cases tr <;> cases ar <;> cases vr <;> cases uc <;>
    cases upload <;> cases send_email <;>
    simp [run, onError, upload_to_youtube, successRun, List.lookup, nNotify, nContent,
      nSeo, nThumb, nAudio, nVideo, nUpload] at h
  all_goals try split at h
  all_goals try simp [List.lookup] at h
  all_goals cases h
  all_goals rfl

/-- C9 witness: a run whose success-notification delivery fails still records
the email-notification stage with status `success`. -/
theorem c9_notify_entry_always_success_witness :
    okEntry.status = sSuccess ∧
    (run envC9 true true).successNotifyOutcome = some (Except.error smtpMsg) :=
  ⟨c9_notify_entry_always_success envC9 true true okEntry (by decide), by decide⟩

/-! ## C10 -/

/-- C10: a run terminating with status `success` has both the end-time and
the duration fields set; a run terminating with status `error` has the
end-time set and no duration field. -/
theorem c10_terminal_record_fields (env : Env) (upload send_email : Bool) :
    ((run env upload send_email).results.status = sSuccess →
      (run env upload send_email).results.endTimeSet = true ∧
      (run env upload send_email).results.durationSet = true) ∧
    ((run env upload send_email).results.status = sError →
      (run env upload send_email).results.endTimeSet = true ∧
      (run env upload send_email).results.durationSet = false) := by
  obtain ⟨cr, sr, tr, ar, vr, uc, ns, ne⟩ := env
  cases cr <;> cases sr <;> cases tr <;> cases ar <;> cases vr <;> cases uc <;>
    cases upload <;> cases send_email <;>
    simp [run, onError, upload_to_youtube, successRun, sSuccess, sError]
  all_goals try split
  all_goals simp

/-- C10 witness: the field presence evaluated on a successful run and on an
erroring run. -/
theorem c10_terminal_record_fields_witness :
    ((run envOk false false).results.endTimeSet = true ∧
      (run envOk false false).results.durationSet = true) ∧
    ((run envC3 true true).results.endTimeSet = true ∧
      (run envC3 true true).results.durationSet = false) :=
  ⟨(c10_terminal_record_fields envOk false false).1 (by decide),
   (c10_terminal_record_fields envC3 true true).2 (by decide)⟩

end YTA
